import Mathlib

/-!
Verification of the error-classification interceptor in
`internal/grpc/interceptor.go`.

The file embeds, as executable Lean definitions, the space of Go error
values the classifier can receive and the function `convertToGRPCError`
(interceptor.go, lines 119-188), together with the unary error
interceptor `UnaryServerErrorInterceptor` (lines 108-117).  Theorems at
the end settle the specification claims about this code.
-/

/-- The gRPC status codes, `google.golang.org/grpc/codes`.  The Go type
is `type Code uint32` with the seventeen canonical values. -/
inductive Code where
  | ok
  | canceled
  | unknown
  | invalidArgument
  | deadlineExceeded
  | notFound
  | alreadyExists
  | permissionDenied
  | resourceExhausted
  | failedPrecondition
  | aborted
  | outOfRange
  | unimplemented
  | internal
  | unavailable
  | dataLoss
  | unauthenticated
  deriving DecidableEq, Repr

/-- `codes.Code.String()` from grpc-go, used by the `Error()` method of a
status error (`rpc error: code = <String()> desc = <msg>`). -/
def Code.string : Code → String
  | .ok => "OK"
  | .canceled => "Canceled"
  | .unknown => "Unknown"
  | .invalidArgument => "InvalidArgument"
  | .deadlineExceeded => "DeadlineExceeded"
  | .notFound => "NotFound"
  | .alreadyExists => "AlreadyExists"
  | .permissionDenied => "PermissionDenied"
  | .resourceExhausted => "ResourceExhausted"
  | .failedPrecondition => "FailedPrecondition"
  | .aborted => "Aborted"
  | .outOfRange => "OutOfRange"
  | .unimplemented => "Unimplemented"
  | .internal => "Internal"
  | .unavailable => "Unavailable"
  | .dataLoss => "DataLoss"
  | .unauthenticated => "Unauthenticated"

/-- The space of non-nil Go `error` values reaching `convertToGRPCError`.

  * `canceled` — the sentinel `context.Canceled`;
  * `deadlineExceeded` — the sentinel `context.DeadlineExceeded`;
  * `statusError c m` — an error carrying a gRPC status, as built by
    `status.Error(c, m)` (or any type whose `GRPCStatus()` returns that
    status); it implements neither `Unwrap() error` nor `Unwrap() []error`;
  * `base m` — a leaf error with message `m` (e.g. `errors.New(m)`);
  * `wrap m inner` — a single wrapper with `Error() = m` and
    `Unwrap() error = inner` (e.g. `fmt.Errorf` with one `%w`);
  * `join m l r` — a multi-error wrapper with `Error() = m` and
    `Unwrap() []error = [l, r]` (e.g. `errors.Join` or `fmt.Errorf` with
    two `%w` directives; wider fan-ins nest).  `errors.Unwrap` (the
    single-level unwrap) returns nil on such a value.

Go `nil` errors never reach the classifier: the interceptor calls it only
under `if err != nil`, so the type has no nil constructor. -/
inductive GoError where
  | canceled
  | deadlineExceeded
  | statusError (code : Code) (msg : String)
  | base (msg : String)
  | wrap (msg : String) (inner : GoError)
  | join (msg : String) (left : GoError) (right : GoError)
  deriving DecidableEq, Repr

/-- `err.Error()`: the flattened message text of an error.  The context
sentinels carry their fixed stdlib texts; a status error formats as in
grpc-go's `(*Error).Error()`; a wrapper's text is whatever its own
`Error()` produces, carried here as the `msg` field. -/
def GoError.errMsg : GoError → String
  | .canceled => "context canceled"
  | .deadlineExceeded => "context deadline exceeded"
  | .statusError c m => "rpc error: code = " ++ c.string ++ " desc = " ++ m
  | .base m => m
  | .wrap m _ => m
  | .join m _ _ => m

/-- `errors.Unwrap(err)`: returns the result of `Unwrap() error` when the
dynamic type has that method, nil otherwise.  Only `wrap` has it; a
multi-error wrapper exposes `Unwrap() []error`, which `errors.Unwrap`
ignores. -/
def unwrapOne : GoError → Option GoError
  | .wrap _ inner => some inner
  | _ => none

/-- `errors.Is(err, context.Canceled)`: the stdlib traversal — compare
each node against the sentinel, follow `Unwrap() error`, and branch into
every child of `Unwrap() []error`.  None of the modelled types implements
an `Is(error) bool` method. -/
def errorsIsCanceled : GoError → Bool
  | .canceled => true
  | .wrap _ inner => errorsIsCanceled inner
  | .join _ l r => errorsIsCanceled l || errorsIsCanceled r
  | _ => false

/-- `errors.Is(err, context.DeadlineExceeded)`, same traversal. -/
def errorsIsDeadlineExceeded : GoError → Bool
  | .deadlineExceeded => true
  | .wrap _ inner => errorsIsDeadlineExceeded inner
  | .join _ l r => errorsIsDeadlineExceeded l || errorsIsDeadlineExceeded r
  | _ => false

/-- The status extraction inside `status.FromError(err)`: an `errors.As`
search (depth-first, pre-order) for the first error in the chain that
implements `GRPCStatus() *Status`, returning its (code, message).
`none` models `ok = false`. -/
def statusFromError : GoError → Option (Code × String)
  | .statusError c m => some (c, m)
  | .wrap _ inner => statusFromError inner
  | .join _ l r =>
    match statusFromError l with
    | some s => some s
    | none => statusFromError r
  | _ => none

/-- The boolean `ok` of `_, ok := status.FromError(err)` (interceptor.go
line 121): whether the error carries or derives from a gRPC status. -/
def hasGRPCStatus (e : GoError) : Bool := (statusFromError e).isSome

/-- The chain visited by the classifier's unwrap loop (interceptor.go
lines 126-138): `err`, `errors.Unwrap(err)`, ... until unwrap yields
nothing further. -/
def linearChain : GoError → List GoError
  | .wrap m inner => .wrap m inner :: linearChain inner
  | e => [e]

/-- The loop of interceptor.go lines 126-138: at each link test
`errors.Is(·, context.Canceled)` then `errors.Is(·, context.DeadlineExceeded)`,
short-circuiting to the corresponding status; then unwrap one level. -/
def contextCheckLoop (e : GoError) : Option (Code × String) :=
  if errorsIsCanceled e then some (.canceled, "request was canceled")
  else if errorsIsDeadlineExceeded e then some (.deadlineExceeded, "request deadline exceeded")
  else
    match e with
    | .wrap _ inner => contextCheckLoop inner
    | _ => none

/-- Whether character list `s` begins with pattern `p` (helper for
substring containment). -/
def hasPre : List Char → List Char → Bool
  | [], _ => true
  | _ :: _, [] => false
  | p :: ps, c :: cs => p == c && hasPre ps cs

/-- Whether character list `s` contains pattern `p` as a contiguous run. -/
def hasSub : List Char → List Char → Bool
  | [], p => p.isEmpty
  | c :: cs, p => hasPre p (c :: cs) || hasSub cs p

/-- Go `strings.Contains(s, substr)`: substring containment on the text. -/
def stringsContains (s substr : String) : Bool :=
  hasSub s.toList substr.toList

/-- `convertToGRPCError` (interceptor.go lines 119-188), the error
classifier: status passthrough, then the context-sentinel unwrap loop,
then the ordered substring fallback on the flattened message, then the
INTERNAL default carrying the message verbatim. -/
def convertToGRPCError (e : GoError) : GoError :=
  if hasGRPCStatus e then e
  else
    match contextCheckLoop e with
    | some (c, m) => .statusError c m
    | none =>
      let errMsg := e.errMsg
      if stringsContains errMsg "context canceled" then
        .statusError .canceled "request was canceled"
      else if stringsContains errMsg "context deadline exceeded" then
        .statusError .deadlineExceeded "request deadline exceeded"
      else if stringsContains errMsg "driver: bad connection"
          || stringsContains errMsg "connection refused"
          || stringsContains errMsg "connection reset"
          || stringsContains errMsg "broken pipe" then
        .statusError .unavailable "database connection unavailable"
      else if stringsContains errMsg "booking already expired" then
        .statusError .failedPrecondition "booking already expired"
      else if stringsContains errMsg "reservation max retry exceeded" then
        .statusError .resourceExhausted "reservation max retry exceeded"
      else if stringsContains errMsg "booking release max retry exceeded" then
        .statusError .resourceExhausted "booking release max retry exceeded"
      else if stringsContains errMsg "class is sold out"
          || stringsContains errMsg "no seat available" then
        .statusError .resourceExhausted "seats are not available"
      else if stringsContains errMsg "class is not available for sale" then
        .statusError .failedPrecondition "class is not available for sale"
      else if stringsContains errMsg "invalid input syntax for type uuid" then
        .statusError .invalidArgument "invalid UUID format"
      else
        .statusError .internal errMsg

/-- `UnaryServerErrorInterceptor` (interceptor.go lines 108-117): run the
handler; on nil error return its response and nil; on non-nil error
return a nil response and the classified error.  The handler's response
is an `interface{}` value, modelled as `Option Resp`; its error return is
`Option GoError` with `none` for nil. -/
def unaryServerErrorInterceptor {Ctx Req Resp : Type}
    (handler : Ctx → Req → Option Resp × Option GoError)
    (ctx : Ctx) (req : Req) : Option Resp × Option GoError :=
  match handler ctx req with
  | (resp, none) => (resp, none)
  | (_, some err) => (none, some (convertToGRPCError err))

/-! ## Helper lemmas -/

/-- The unwrap loop of lines 126-138 is equivalent to its first iteration:
`errors.Is` already scans the whole chain, so later iterations test
sub-chains of what the first two tests covered. -/
theorem contextCheckLoop_eq (e : GoError) : contextCheckLoop e =
    (if errorsIsCanceled e then some (Code.canceled, "request was canceled")
     else if errorsIsDeadlineExceeded e then some (Code.deadlineExceeded, "request deadline exceeded")
     else none) := by
  induction e with
  | wrap m inner ih =>
    rw [contextCheckLoop]
    by_cases hc : errorsIsCanceled (GoError.wrap m inner)
    · simp [hc]
    · by_cases hd : errorsIsDeadlineExceeded (GoError.wrap m inner)
      · simp [hc, hd]
      · simp only [Bool.not_eq_true] at hc hd
        have hc' : errorsIsCanceled inner = false := hc
        have hd' : errorsIsDeadlineExceeded inner = false := hd
        simp [hc, hd, ih, hc', hd']
  | canceled => rfl
  | deadlineExceeded => rfl
  | statusError c msg => rfl
  | base msg => rfl
  | join m l r ihl ihr =>
    rw [contextCheckLoop]
    simp

/-- If the single-level unwrap chain contains the deadline sentinel, every
link of that chain is a single wrapper down to the `deadlineExceeded`
leaf, so the error matches the deadline sentinel, does not match the
canceled sentinel, and carries no status. -/
theorem linearChain_deadline : ∀ {e : GoError}, GoError.deadlineExceeded ∈ linearChain e →
    errorsIsCanceled e = false ∧ errorsIsDeadlineExceeded e = true ∧ hasGRPCStatus e = false := by
  intro e
  induction e with
  | wrap m inner ih =>
    intro h
    rw [linearChain, List.mem_cons] at h
    rcases h with h | h
    · exact absurd h (by simp)
    · exact ih h
  | canceled => intro h; simp [linearChain] at h
  | deadlineExceeded => intro _; exact ⟨rfl, rfl, rfl⟩
  | statusError c msg => intro h; simp [linearChain] at h
  | base msg => intro h; simp [linearChain] at h
  | join m l r ihl ihr => intro h; simp [linearChain] at h

/-- Status passthrough: when the error carries a status, the classifier
returns it unchanged (lines 121-123). -/
theorem convert_passthrough (e : GoError) (h : hasGRPCStatus e = true) :
    convertToGRPCError e = e := by
  rw [convertToGRPCError]
  simp [h]

/-- When none of the substring rules matches and no sentinel or status is
present, the classifier falls to the INTERNAL default with the verbatim
message (lines 186-187). -/
theorem convert_default_internal (e : GoError) (h1 : hasGRPCStatus e = false)
    (hc : errorsIsCanceled e = false) (hd : errorsIsDeadlineExceeded e = false)
    (m1 : stringsContains e.errMsg "context canceled" = false)
    (m2 : stringsContains e.errMsg "context deadline exceeded" = false)
    (m3 : stringsContains e.errMsg "driver: bad connection" = false)
    (m4 : stringsContains e.errMsg "connection refused" = false)
    (m5 : stringsContains e.errMsg "connection reset" = false)
    (m6 : stringsContains e.errMsg "broken pipe" = false)
    (m7 : stringsContains e.errMsg "booking already expired" = false)
    (m8 : stringsContains e.errMsg "reservation max retry exceeded" = false)
    (m9 : stringsContains e.errMsg "booking release max retry exceeded" = false)
    (m10 : stringsContains e.errMsg "class is sold out" = false)
    (m11 : stringsContains e.errMsg "no seat available" = false)
    (m12 : stringsContains e.errMsg "class is not available for sale" = false)
    (m13 : stringsContains e.errMsg "invalid input syntax for type uuid" = false) :
    convertToGRPCError e = .statusError .internal e.errMsg := by
  simp [convertToGRPCError, contextCheckLoop_eq, h1, hc, hd, m1, m2, m3, m4, m5, m6, m7,
    m8, m9, m10, m11, m12, m13]

/-- Without a pre-existing status, the classifier always produces a fresh
status error whose code comes from the seven codes of the rule set. -/
theorem convert_shape (e : GoError) (h : hasGRPCStatus e = false) :
    ∃ c m, convertToGRPCError e = .statusError c m ∧
      (c = Code.canceled ∨ c = Code.deadlineExceeded ∨ c = Code.invalidArgument ∨
       c = Code.failedPrecondition ∨ c = Code.resourceExhausted ∨ c = Code.unavailable ∨
       c = Code.internal) := by
  rw [convertToGRPCError]
  simp only [h, Bool.false_eq_true, if_false, contextCheckLoop_eq]
  by_cases hc : errorsIsCanceled e
  · simp only [hc, if_true]
    exact ⟨_, _, rfl, by tauto⟩
  · by_cases hd : errorsIsDeadlineExceeded e
    · simp only [hc, hd, Bool.false_eq_true, if_false, if_true]
      exact ⟨_, _, rfl, by tauto⟩
    · simp only [hc, hd, Bool.false_eq_true, if_false]
      by_cases m1 : stringsContains e.errMsg "context canceled" = true
      · rw [if_pos m1]
        exact ⟨_, _, rfl, Or.inl rfl⟩
      · rw [if_neg m1]
        by_cases m2 : stringsContains e.errMsg "context deadline exceeded" = true
        · rw [if_pos m2]
          exact ⟨_, _, rfl, Or.inr (Or.inl rfl)⟩
        · rw [if_neg m2]
          by_cases m3 : (stringsContains e.errMsg "driver: bad connection" || stringsContains e.errMsg "connection refused" || stringsContains e.errMsg "connection reset" || stringsContains e.errMsg "broken pipe") = true
          · rw [if_pos m3]
            exact ⟨_, _, rfl, Or.inr (Or.inr (Or.inr (Or.inr (Or.inr (Or.inl rfl)))))⟩
          · rw [if_neg m3]
            by_cases m4 : stringsContains e.errMsg "booking already expired" = true
            · rw [if_pos m4]
              exact ⟨_, _, rfl, Or.inr (Or.inr (Or.inr (Or.inl rfl)))⟩
            · rw [if_neg m4]
              by_cases m5 : stringsContains e.errMsg "reservation max retry exceeded" = true
              · rw [if_pos m5]
                exact ⟨_, _, rfl, Or.inr (Or.inr (Or.inr (Or.inr (Or.inl rfl))))⟩
              · rw [if_neg m5]
                by_cases m6 : stringsContains e.errMsg "booking release max retry exceeded" = true
                · rw [if_pos m6]
                  exact ⟨_, _, rfl, Or.inr (Or.inr (Or.inr (Or.inr (Or.inl rfl))))⟩
                · rw [if_neg m6]
                  by_cases m7 : (stringsContains e.errMsg "class is sold out" || stringsContains e.errMsg "no seat available") = true
                  · rw [if_pos m7]
                    exact ⟨_, _, rfl, Or.inr (Or.inr (Or.inr (Or.inr (Or.inl rfl))))⟩
                  · rw [if_neg m7]
                    by_cases m8 : stringsContains e.errMsg "class is not available for sale" = true
                    · rw [if_pos m8]
                      exact ⟨_, _, rfl, Or.inr (Or.inr (Or.inr (Or.inl rfl)))⟩
                    · rw [if_neg m8]
                      by_cases m9 : stringsContains e.errMsg "invalid input syntax for type uuid" = true
                      · rw [if_pos m9]
                        exact ⟨_, _, rfl, Or.inr (Or.inr (Or.inl rfl))⟩
                      · rw [if_neg m9]
                        exact ⟨_, _, rfl, Or.inr (Or.inr (Or.inr (Or.inr (Or.inr (Or.inr rfl)))))⟩

/-! ## Claims -/

/-- Claim C1: for every non-nil error that already carries or derives
from a gRPC status object, classification returns that error unchanged
(same code and message), and classifying an already-classified error
never reclassifies it (idempotence). -/
theorem claim_C1 (e : GoError) (h : hasGRPCStatus e = true) :
    convertToGRPCError e = e ∧
    convertToGRPCError (convertToGRPCError e) = convertToGRPCError e := by
  have h1 : convertToGRPCError e = e := convert_passthrough e h
  exact ⟨h1, by rw [h1, h1]⟩

/-- Witness for C1: an error already carrying a FAILED_PRECONDITION
status passes through unchanged (spec scenario 5). -/
theorem claim_C1_witness :
    convertToGRPCError (.statusError .failedPrecondition "booking already expired") =
        .statusError .failedPrecondition "booking already expired" ∧
      convertToGRPCError (convertToGRPCError (.statusError .failedPrecondition "booking already expired")) =
        convertToGRPCError (.statusError .failedPrecondition "booking already expired") :=
  claim_C1 _ rfl

/-- Claim C2: a non-nil error without a status object whose unwrap chain
contains the `context.DeadlineExceeded` sentinel classifies as
(DEADLINE_EXCEEDED, "request deadline exceeded"), regardless of its
flattened text: the structured chain walk precedes the text fallback. -/
theorem claim_C2 (e : GoError) (h1 : hasGRPCStatus e = false)
    (h2 : GoError.deadlineExceeded ∈ linearChain e) :
    convertToGRPCError e = .statusError .deadlineExceeded "request deadline exceeded" := by
  obtain ⟨hc, hd, _⟩ := linearChain_deadline h2
  simp [convertToGRPCError, contextCheckLoop_eq, h1, hc, hd]

/-- Witness for C2: a deadline sentinel wrapped two levels deep, under
wrappers whose texts contain none of the listed substrings. -/
theorem claim_C2_witness :
    hasGRPCStatus (.wrap "query bookings failed" (.wrap "db call" .deadlineExceeded)) = false ∧
    GoError.deadlineExceeded ∈ linearChain (.wrap "query bookings failed" (.wrap "db call" .deadlineExceeded)) ∧
    convertToGRPCError (.wrap "query bookings failed" (.wrap "db call" .deadlineExceeded)) =
      .statusError .deadlineExceeded "request deadline exceeded" :=
  ⟨rfl, by decide, claim_C2 _ rfl (by decide)⟩

/-- Claim C3: a non-nil error without status and without either context
sentinel whose flattened message contains both "context canceled" and
"connection refused" classifies as (CANCELED, "request was canceled"):
the substring rules run in the listed order and the first match wins. -/
theorem claim_C3 (e : GoError) (h1 : hasGRPCStatus e = false)
    (hc : errorsIsCanceled e = false) (hd : errorsIsDeadlineExceeded e = false)
    (hm1 : stringsContains e.errMsg "context canceled" = true)
    (hm2 : stringsContains e.errMsg "connection refused" = true) :
    convertToGRPCError e = .statusError .canceled "request was canceled" := by
  simp [convertToGRPCError, contextCheckLoop_eq, h1, hc, hd, hm1]

/-- Witness for C3: a plain error whose text contains both substrings. -/
theorem claim_C3_witness :
    hasGRPCStatus (.base "context canceled: connection refused") = false ∧
    errorsIsCanceled (.base "context canceled: connection refused") = false ∧
    errorsIsDeadlineExceeded (.base "context canceled: connection refused") = false ∧
    stringsContains (GoError.errMsg (.base "context canceled: connection refused")) "context canceled" = true ∧
    stringsContains (GoError.errMsg (.base "context canceled: connection refused")) "connection refused" = true ∧
    convertToGRPCError (.base "context canceled: connection refused") =
      .statusError .canceled "request was canceled" :=
  ⟨rfl, rfl, rfl, by decide, by decide, claim_C3 _ rfl rfl rfl (by decide) (by decide)⟩

/-- Claim C4: a non-nil error without status, without either context
sentinel in its chain, and whose flattened message contains none of the
listed substrings classifies as INTERNAL with the original flattened
text, verbatim. -/
theorem claim_C4 (e : GoError) (h1 : hasGRPCStatus e = false)
    (hc : errorsIsCanceled e = false) (hd : errorsIsDeadlineExceeded e = false)
    (m1 : stringsContains e.errMsg "context canceled" = false)
    (m2 : stringsContains e.errMsg "context deadline exceeded" = false)
    (m3 : stringsContains e.errMsg "driver: bad connection" = false)
    (m4 : stringsContains e.errMsg "connection refused" = false)
    (m5 : stringsContains e.errMsg "connection reset" = false)
    (m6 : stringsContains e.errMsg "broken pipe" = false)
    (m7 : stringsContains e.errMsg "booking already expired" = false)
    (m8 : stringsContains e.errMsg "reservation max retry exceeded" = false)
    (m9 : stringsContains e.errMsg "booking release max retry exceeded" = false)
    (m10 : stringsContains e.errMsg "class is sold out" = false)
    (m11 : stringsContains e.errMsg "no seat available" = false)
    (m12 : stringsContains e.errMsg "class is not available for sale" = false)
    (m13 : stringsContains e.errMsg "invalid input syntax for type uuid" = false) :
    convertToGRPCError e = .statusError .internal e.errMsg :=
  convert_default_internal e h1 hc hd m1 m2 m3 m4 m5 m6 m7 m8 m9 m10 m11 m12 m13

/-- Witness for C4: spec scenario 4, the verbatim INTERNAL passthrough. -/
theorem claim_C4_witness :
    convertToGRPCError (.base "unexpected nil pointer at line 88") =
      .statusError .internal (GoError.errMsg (.base "unexpected nil pointer at line 88")) :=
  claim_C4 _ rfl rfl rfl (by decide) (by decide) (by decide) (by decide) (by decide)
    (by decide) (by decide) (by decide) (by decide) (by decide) (by decide) (by decide) (by decide)

/-- Claim C5: a non-nil error without status or context sentinel whose
flattened message contains "invalid input syntax for type uuid" and none
of the earlier rules' substrings classifies as
(INVALID_ARGUMENT, "invalid UUID format"), a fixed constant message. -/
theorem claim_C5 (e : GoError) (h1 : hasGRPCStatus e = false)
    (hc : errorsIsCanceled e = false) (hd : errorsIsDeadlineExceeded e = false)
    (m1 : stringsContains e.errMsg "context canceled" = false)
    (m2 : stringsContains e.errMsg "context deadline exceeded" = false)
    (m3 : stringsContains e.errMsg "driver: bad connection" = false)
    (m4 : stringsContains e.errMsg "connection refused" = false)
    (m5 : stringsContains e.errMsg "connection reset" = false)
    (m6 : stringsContains e.errMsg "broken pipe" = false)
    (m7 : stringsContains e.errMsg "booking already expired" = false)
    (m8 : stringsContains e.errMsg "reservation max retry exceeded" = false)
    (m9 : stringsContains e.errMsg "booking release max retry exceeded" = false)
    (m10 : stringsContains e.errMsg "class is sold out" = false)
    (m11 : stringsContains e.errMsg "no seat available" = false)
    (m12 : stringsContains e.errMsg "class is not available for sale" = false)
    (m13 : stringsContains e.errMsg "invalid input syntax for type uuid" = true) :
    convertToGRPCError e = .statusError .invalidArgument "invalid UUID format" := by
  simp [convertToGRPCError, contextCheckLoop_eq, h1, hc, hd, m1, m2, m3, m4, m5, m6, m7,
    m8, m9, m10, m11, m12, m13]

/-- Witness for C5: spec scenario 2, a PostgreSQL UUID syntax error. -/
theorem claim_C5_witness :
    convertToGRPCError (.base "pq: invalid input syntax for type uuid: \"xyz\"") =
      .statusError .invalidArgument "invalid UUID format" :=
  claim_C5 _ rfl rfl rfl (by decide) (by decide) (by decide) (by decide) (by decide)
    (by decide) (by decide) (by decide) (by decide) (by decide) (by decide) (by decide) (by decide)

/-- Claim C6: classification is total on non-nil inputs: the returned
error always carries a defined (code, message) status pair — it is never
nil/absent (and the embedding is a total function, mirroring that the Go
code has no panicking operation on this path). -/
theorem claim_C6 (e : GoError) :
    ∃ cm : Code × String, statusFromError (convertToGRPCError e) = some cm := by
  by_cases h : hasGRPCStatus e
  · rw [convert_passthrough e h]
    exact Option.isSome_iff_exists.mp h
  · obtain ⟨c, m, hcm, _⟩ := convert_shape e (eq_false_of_ne_true h)
    exact ⟨(c, m), by rw [hcm]; rfl⟩

/-- Counterexample for C7 as stated: a non-nil error already carrying a
NOT_FOUND status passes through unchanged, so classification produces
the code NOT_FOUND, which lies outside the seven-code set. -/
theorem claim_C7_counterexample :
    statusFromError (convertToGRPCError (.statusError .notFound "row not found")) =
        some (Code.notFound, "row not found") ∧
      Code.notFound ∉ [Code.canceled, Code.deadlineExceeded, Code.invalidArgument,
        Code.failedPrecondition, Code.resourceExhausted, Code.unavailable, Code.internal] := by
  decide

/-- Claim C7 (amended): for every non-nil input that does not already
carry or derive from a gRPC status object, the code produced by
classification lies in the seven-code set; OK is never produced for such
inputs.  (Status-carrying inputs pass through with their original code,
which may lie outside the set.) -/
theorem claim_C7 (e : GoError) (h : hasGRPCStatus e = false) :
    ∃ cm : Code × String, statusFromError (convertToGRPCError e) = some cm ∧
      cm.1 ∈ [Code.canceled, Code.deadlineExceeded, Code.invalidArgument,
        Code.failedPrecondition, Code.resourceExhausted, Code.unavailable, Code.internal] := by
  obtain ⟨c, m, hcm, hs⟩ := convert_shape e h
  refine ⟨(c, m), by rw [hcm]; rfl, ?_⟩
  rcases hs with h' | h' | h' | h' | h' | h' | h' <;> subst h' <;> simp

/-- Witness for C7: a plain unclassified error lands on a code of the
seven-code set. -/
theorem claim_C7_witness :
    ∃ cm : Code × String,
      statusFromError (convertToGRPCError (.base "boom")) = some cm ∧
      cm.1 ∈ [Code.canceled, Code.deadlineExceeded, Code.invalidArgument,
        Code.failedPrecondition, Code.resourceExhausted, Code.unavailable, Code.internal] :=
  claim_C7 _ rfl

/-- Claim C8: a non-nil error whose flattened message is empty, with no
status object and no context sentinel in its chain, classifies as
INTERNAL with an empty message. -/
theorem claim_C8 (e : GoError) (h1 : hasGRPCStatus e = false)
    (hc : errorsIsCanceled e = false) (hd : errorsIsDeadlineExceeded e = false)
    (hmsg : e.errMsg = "") :
    convertToGRPCError e = .statusError .internal "" := by
  have m1 : stringsContains e.errMsg "context canceled" = false := by rw [hmsg]; decide
  have m2 : stringsContains e.errMsg "context deadline exceeded" = false := by rw [hmsg]; decide
  have m3 : stringsContains e.errMsg "driver: bad connection" = false := by rw [hmsg]; decide
  have m4 : stringsContains e.errMsg "connection refused" = false := by rw [hmsg]; decide
  have m5 : stringsContains e.errMsg "connection reset" = false := by rw [hmsg]; decide
  have m6 : stringsContains e.errMsg "broken pipe" = false := by rw [hmsg]; decide
  have m7 : stringsContains e.errMsg "booking already expired" = false := by rw [hmsg]; decide
  have m8 : stringsContains e.errMsg "reservation max retry exceeded" = false := by rw [hmsg]; decide
  have m9 : stringsContains e.errMsg "booking release max retry exceeded" = false := by rw [hmsg]; decide
  have m10 : stringsContains e.errMsg "class is sold out" = false := by rw [hmsg]; decide
  have m11 : stringsContains e.errMsg "no seat available" = false := by rw [hmsg]; decide
  have m12 : stringsContains e.errMsg "class is not available for sale" = false := by rw [hmsg]; decide
  have m13 : stringsContains e.errMsg "invalid input syntax for type uuid" = false := by rw [hmsg]; decide
  have hdef := convert_default_internal e h1 hc hd m1 m2 m3 m4 m5 m6 m7 m8 m9 m10 m11 m12 m13
  rw [hdef, hmsg]

/-- Witness for C8: the empty leaf error. -/
theorem claim_C8_witness :
    convertToGRPCError (.base "") = .statusError .internal "" :=
  claim_C8 _ rfl rfl rfl rfl

/-- Claim C9: a non-nil error without a status object whose chain
contains both context sentinels (at any depths, in either order)
classifies as (CANCELED, "request was canceled"): the canceled check runs
first and itself scans the entire chain, so it wins regardless of which
sentinel is shallower. -/
theorem claim_C9 (e : GoError) (h1 : hasGRPCStatus e = false)
    (hc : errorsIsCanceled e = true) (hd : errorsIsDeadlineExceeded e = true) :
    convertToGRPCError e = .statusError .canceled "request was canceled" := by
  simp [convertToGRPCError, contextCheckLoop_eq, h1, hc]

/-- Witness for C9: a joined error with the deadline sentinel shallower
on the left and the canceled sentinel on the right. -/
theorem claim_C9_witness :
    hasGRPCStatus (.join "aggregate failure" (.wrap "db call" .deadlineExceeded) .canceled) = false ∧
    errorsIsCanceled (.join "aggregate failure" (.wrap "db call" .deadlineExceeded) .canceled) = true ∧
    errorsIsDeadlineExceeded (.join "aggregate failure" (.wrap "db call" .deadlineExceeded) .canceled) = true ∧
    convertToGRPCError (.join "aggregate failure" (.wrap "db call" .deadlineExceeded) .canceled) =
      .statusError .canceled "request was canceled" :=
  ⟨rfl, rfl, rfl, claim_C9 _ rfl rfl rfl⟩

/-- Claim C10: the unary error interceptor leaves the success path
untouched and classifies only on the error path: a nil handler error
passes the response and nil error through unchanged; a non-nil handler
error yields a nil response together with the classified error, the
handler's response value being discarded. -/
theorem claim_C10 {Ctx Req Resp : Type}
    (handler : Ctx → Req → Option Resp × Option GoError) (ctx : Ctx) (req : Req) :
    (∀ resp, handler ctx req = (resp, none) →
      unaryServerErrorInterceptor handler ctx req = (resp, none)) ∧
    (∀ resp err, handler ctx req = (resp, some err) →
      unaryServerErrorInterceptor handler ctx req = (none, some (convertToGRPCError err))) := by
  constructor
  · intro resp hr
    simp [unaryServerErrorInterceptor, hr]
  · intro resp err hr
    simp [unaryServerErrorInterceptor, hr]

/-- Witness for C10: a succeeding handler's response passes through; a
failing handler's non-nil response is discarded and its error is
classified. -/
theorem claim_C10_witness :
    unaryServerErrorInterceptor
        (fun (_ : Unit) (_ : Unit) => ((some 7 : Option Nat), (none : Option GoError))) () () =
      (some 7, none) ∧
    unaryServerErrorInterceptor
        (fun (_ : Unit) (_ : Unit) => ((some 7 : Option Nat), some (GoError.base "boom"))) () () =
      (none, some (convertToGRPCError (.base "boom"))) :=
  ⟨(claim_C10 _ () ()).1 (some 7) rfl,
   (claim_C10 _ () ()).2 (some 7) (GoError.base "boom") rfl⟩
